import Mathlib

/-
Shallow embedding of the screen-and-score-and-select engine of the
Buffett-ish portfolio builder (source: src/src/test-buffet-portfolio.py).

Modelling conventions:
 - Python floats are modelled as rationals (ℚ).  All divisions performed by
   the source are guarded by positivity tests, so no non-finite value can
   arise; the Option-valued "checked" scorer makes the guards explicit.
 - A missing metric field (Python None) is `Option.none`.
 - The free-text rejection reason strings of `passes_screen` are modelled as
   an inductive tag type `Reason`, one constructor per distinct reason site
   in the source (the source formats the relevant threshold into the string;
   the spec states the reasons are diagnostics, not machine-parsed).
 - The external metrics provider (yfinance) is a parameter: `infoOf` models
   the `t.info` fetch (which the source does NOT guard with try/except) and
   `histOf` models the `t.history` fetch together with the momentum
   arithmetic derived from it (which the source DOES guard with try/except).
 - pandas `sort_values` is modelled as an insertion sort; pandas leaves the
   order of equal keys unspecified (quicksort), the spec allows any
   documented stable tie-break, and none of the verified properties depend
   on the order chosen among equal keys.
-/

namespace Buffett

/-- Rejection reason tags, one per `reasons.append(...)` site in
`passes_screen` of the source. -/
inductive Reason where
  | missingPE
  | peLow
  | peHigh
  | missingPM
  | pmNonpos
  | missingDTE
  | dteHigh
  | missingROE
  | roeLow
  | missingBeta
  | betaHigh
deriving DecidableEq, Repr

/-- Per-sleeve guardrails and factor weights (`SLEEVE_RULES` entries in the
source; every entry of the source table defines every key). -/
structure SleeveRules where
  max_pe : ℚ
  max_beta : ℚ
  w_pe : ℚ
  w_quality : ℚ
  w_balance : ℚ
  w_risk : ℚ
  w_div : ℚ
deriving DecidableEq, Repr

/-- The `SLEEVE_RULES` table of the source; `none` models a sleeve absent
from the dict (`SLEEVE_RULES.get(sleeve, {})`). -/
def SLEEVE_RULES : String → Option SleeveRules
  | "anchor" => some ⟨35, 1.30, 1.2, 0.6, 0.4, 0.6, 0.2⟩
  | "value_hedge" => some ⟨25, 1.25, 1.6, 1.0, 0.8, 0.6, 0.8⟩
  | "growth" => some ⟨50, 1.60, 1.0, 0.8, 0.4, 0.4, 0.1⟩
  | "ai_tilt" => some ⟨70, 1.90, 0.7, 0.7, 0.4, 0.2, 0.0⟩
  | "financials" => some ⟨22, 1.40, 1.7, 0.9, 0.6, 0.6, 0.3⟩
  | "healthcare" => some ⟨40, 1.40, 1.2, 1.1, 0.6, 0.5, 0.2⟩
  | "small_mid" => some ⟨40, 1.60, 1.2, 0.7, 0.6, 0.4, 0.1⟩
  | "international" => some ⟨35, 1.40, 1.3, 0.8, 0.5, 0.5, 0.2⟩
  | "energy" => some ⟨25, 1.60, 1.8, 0.6, 0.8, 0.3, 0.4⟩
  | "infrastructure" => some ⟨35, 1.50, 1.2, 0.8, 0.6, 0.4, 0.2⟩
  | _ => none

/-- `SLEEVE_TARGET_WEIGHTS` of the source. -/
def SLEEVE_TARGET_WEIGHTS : List (String × ℚ) :=
  [("anchor", 0.30), ("value_hedge", 0.15), ("growth", 0.15), ("ai_tilt", 0.10),
   ("financials", 0.05), ("healthcare", 0.05), ("small_mid", 0.07),
   ("international", 0.05), ("energy", 0.04), ("infrastructure", 0.04)]

/-- `PICKS_PER_SLEEVE` of the source. -/
def PICKS_PER_SLEEVE : List (String × Nat) :=
  [("anchor", 12), ("value_hedge", 12), ("growth", 12), ("ai_tilt", 12),
   ("financials", 12), ("healthcare", 12), ("small_mid", 12),
   ("international", 12), ("energy", 12), ("infrastructure", 12)]

/-- `ETF_TICKERS` of the source (a Python set; only membership is used). -/
def ETF_TICKERS : List String := [
  "VOO", "VTI", "IVV", "ITOT", "SPY", "SCHD", "VTV", "IWD", "DGRO", "QUAL", "HDV",
  "SCHG", "VUG", "SPYG", "IWF", "SMH", "SOXX", "XSD", "VFH", "XLF", "FNCL", "IYF", "KBE",
  "VHT", "XLV", "FHLC", "IXJ", "VB", "VO", "IJR", "IJH", "AVUV", "VBR",
  "VXUS", "IEFA", "VEA", "VWO", "AVEM", "XLE", "VDE", "FENY", "IXC",
  "PAVE", "IFRA", "NFRA", "IGF"]

/-- `UNIVERSE` of the source: sleeve name to list of candidate tickers,
exactly as written there (including its duplicated entries). -/
def UNIVERSE : List (String × List String) := [
  ("anchor", ["VOO", "VTI", "IVV", "ITOT", "SPY", "SCHX", "SPLG", "SPTM", "AAPL", "MSFT", "GOOGL", "AMZN", "BRK-B", "JPM", "V", "JNJ", "WMT", "PG", "MA", "HD", "DIS", "NVDA", "META", "LLY", "AVGO", "TSM", "XOM", "CVX", "ABBV", "MRK", "KO", "PEP", "COST", "CSCO", "ACN", "MCD", "TMO", "ABT", "ORCL", "CRM", "ADBE", "NKE", "DHR", "TXN", "UNH", "PM", "NEE", "HON"]),
  ("value_hedge", ["SCHD", "VTV", "IWD", "DGRO", "QUAL", "HDV", "VYM", "DVY", "KO", "PG", "PEP", "MCD", "CVX", "JNJ", "WMT", "VZ", "T", "PM", "MO", "BMY", "MMM", "CAT", "DE", "UPS", "RTX", "BA", "GD", "LMT", "XOM", "COP", "PSX", "MPC", "KMB", "CL", "GIS", "K", "HSY", "CPB", "SO", "DUK", "D", "AEP", "EXC", "ED", "ES", "FE", "ETR", "WEC"]),
  ("growth", ["SCHG", "VUG", "SPYG", "IWF", "VONG", "MGK", "IVW", "SPBO", "MSFT", "AMZN", "GOOGL", "META", "NFLX", "TSLA", "NVDA", "CRM", "ADBE", "NOW", "SHOP", "SQ", "UBER", "ABNB", "SNOW", "DDOG", "NET", "CRWD", "ZS", "OKTA", "TEAM", "WDAY", "PANW", "FTNT", "MRVL", "ANET", "SNPS", "CDNS", "INTU", "ISRG", "REGN", "VRTX", "ALNY", "MRNA", "BNTX", "ILMN", "GILD", "BIIB", "AMGN", "CELG"]),
  ("ai_tilt", ["SMH", "SOXX", "XSD", "SOXQ", "PSI", "IGV", "QTEC", "SKYY", "NVDA", "AVGO", "TSM", "ASML", "AMD", "MU", "QCOM", "INTC", "MRVL", "ARM", "PLTR", "SNOW", "AI", "BBAI", "SOUN", "MSFT", "GOOGL", "META", "AMZN", "ORCL", "CRM", "NOW", "ADBE", "INTU", "PANW", "CRWD", "ZS", "NET", "DDOG", "S", "ANET", "SNPS", "CDNS", "KLAC", "LRCX", "AMAT", "NXPI", "TXN", "ADI", "MCHP"]),
  ("financials", ["VFH", "XLF", "FNCL", "IYF", "KBE", "IAI", "KRE", "KBWB", "JPM", "BAC", "GS", "MS", "BLK", "BRK-B", "C", "WFC", "SCHW", "AXP", "USB", "PNC", "TFC", "COF", "BK", "STT", "NTRS", "BEN", "TROW", "IVZ", "V", "MA", "PYPL", "SQ", "FIS", "FISV", "ADP", "PAYX", "BR", "MMC", "AON", "WTW", "AJG", "BRO", "AFL", "MET", "PRU", "ALL", "TRV", "CB"]),
  ("healthcare", ["VHT", "XLV", "FHLC", "IXJ", "IYH", "VBK", "IBB", "XBI", "UNH", "LLY", "JNJ", "MRK", "ABBV", "TMO", "ABT", "DHR", "PFE", "BMY", "AMGN", "GILD", "REGN", "VRTX", "ISRG", "SYK", "BSX", "MDT", "EW", "ZBH", "BAX", "BDX", "HOLX", "ALGN", "IDXX", "IQV", "A", "LH", "DGX", "CVS", "CI", "HUM", "CNC", "MOH", "ELV", "HCA", "THC", "UHS", "CYH", "LPLA"]),
  ("small_mid", ["VB", "VO", "IJR", "IJH", "AVUV", "VBR", "IWM", "SCHA", "URI", "FAST", "HUBB", "POOL", "WST", "ODFL", "TDY", "ROL", "WSO", "FICO", "VRSK", "MSCI", "SPGI", "MCO", "TRU", "EFX", "JKHY", "BR", "FDS", "IEX", "PH", "ITW", "EMR", "ETN", "ROK", "AME", "ROP", "FTV", "XYL", "IEX", "DOV", "FAST", "SNA", "PCAR", "CHRW", "JBHT", "KNX", "LSTR", "EXPD", "SAIA"]),
  ("international", ["VXUS", "IEFA", "VEA", "VWO", "AVEM", "IXUS", "ACWX", "VSGX", "ASML", "NVO", "SAP", "TSM", "TM", "SONY", "NVS", "UL", "BABA", "SHOP", "SE", "MELI", "PDD", "JD", "BIDU", "NIO", "XPEV", "LI", "GRAB", "DIDI", "TCEHY", "BABA", "PDD", "JD", "NTES", "BILI", "IQ", "VIPS", "TME", "BEKE", "RIO", "BHP", "VALE", "FCX", "SCCO", "GOLD", "NEM", "AEM", "KGC", "AU"]),
  ("energy", ["XLE", "VDE", "FENY", "IXC", "IYE", "PXE", "PSCE", "RYE", "XOM", "CVX", "COP", "EOG", "SLB", "MPC", "PSX", "VLO", "OXY", "HAL", "BKR", "NOV", "FTI", "HP", "CHK", "DVN", "FANG", "MRO", "APA", "HES", "PXD", "CXO", "OVV", "CTRA", "EQT", "AR", "RRC", "SM", "MGY", "PR", "LNG", "TELL", "NEXT", "GLNG", "FLNG", "KMI", "WMB", "OKE", "EPD", "ET"]),
  ("infrastructure", ["PAVE", "IFRA", "NFRA", "IGF", "PKB", "PXI", "ITB", "XHB", "CAT", "NEE", "UNP", "DE", "NSC", "CSX", "SO", "DUK", "D", "AEP", "EXC", "ED", "ES", "FE", "ETR", "WEC", "PEG", "XEL", "PCG", "SRE", "AWK", "WM", "RSG", "WCN", "CWST", "GFL", "URI", "VMC", "MLM", "NUE", "STLD", "RS", "CMC", "CLF", "X", "MT", "TX", "GGB", "VALE", "FCX"])
]

/-- Global screening settings (`ScreenConfig` dataclass of the source). -/
structure ScreenConfig where
  pe_max : ℚ
  pe_min : ℚ
  require_positive_profit_margin : Bool
  debt_to_equity_max : Option ℚ
  min_return_on_equity : Option ℚ
  allow_missing_fields : Bool
deriving DecidableEq, Repr

/-- The `SCREEN` constant of the source. -/
def SCREEN : ScreenConfig :=
  { pe_max := 30.0, pe_min := 5.0, require_positive_profit_margin := false,
    debt_to_equity_max := none, min_return_on_equity := none,
    allow_missing_fields := true }

/-- A metrics row: the dict built by `fetch_metrics` (field `peg` carries the
source's `pegRatio` key) plus the `sleeve` column that `build_portfolio`
attaches.  A missing field (Python `None`) is `none`. -/
structure Row where
  ticker : String
  sleeve : String
  trailingPE : Option ℚ
  forwardPE : Option ℚ
  profitMargins : Option ℚ
  returnOnEquity : Option ℚ
  debtToEquity : Option ℚ
  marketCap : Option ℚ
  dividendYield : Option ℚ
  beta : Option ℚ
  priceToBook : Option ℚ
  peg : Option ℚ
  revenueGrowth : Option ℚ
  return_3m : Option ℚ
  return_6m : Option ℚ
  proximity_52w : Option ℚ
deriving DecidableEq, Repr

/-- The all-fields-absent snapshot for a ticker (what the spec calls the
all-absent `MetricsSnapshot`). -/
def allAbsentRow (tk sl : String) : Row :=
  { ticker := tk, sleeve := sl,
    trailingPE := none, forwardPE := none, profitMargins := none,
    returnOnEquity := none, debtToEquity := none, marketCap := none,
    dividendYield := none, beta := none, priceToBook := none,
    peg := none, revenueGrowth := none,
    return_3m := none, return_6m := none, proximity_52w := none }

/-- "P/E used": trailing P/E if present, else forward P/E
(`pe_used = pe if pe is not None else fpe` in both `passes_screen` and
`score_row`, and the `pe_used` column `trailingPE.fillna(forwardPE)`). -/
def peUsed (r : Row) : Option ℚ :=
  match r.trailingPE with
  | some v => some v
  | none => r.forwardPE

/-- Effective P/E ceiling: sleeve `max_pe` if the sleeve has rules, else the
global `cfg.pe_max` (`rules.get("max_pe", cfg.pe_max)`). -/
def effectiveMaxPE (sl : String) (cfg : ScreenConfig) : ℚ :=
  ((SLEEVE_RULES sl).map (fun ru => ru.max_pe)).getD cfg.pe_max

/-- Effective beta ceiling: sleeve `max_beta` if the sleeve has rules, else
none, i.e. no beta check (`rules.get("max_beta", None)`). -/
def effectiveMaxBeta (sl : String) : Option ℚ :=
  (SLEEVE_RULES sl).map (fun ru => ru.max_beta)

/- Screening: the five reason-producing blocks of `passes_screen`, in source
order.  Each block follows the source's "absent + intolerant ⇒ reason;
absent + tolerant ⇒ nothing; present ⇒ evaluate threshold" shape. -/

/-- P/E block of `passes_screen`. -/
def peReasons (r : Row) (cfg : ScreenConfig) : List Reason :=
  match peUsed r with
  | none => if cfg.allow_missing_fields then [] else [Reason.missingPE]
  | some v =>
      (if v < cfg.pe_min then [Reason.peLow] else []) ++
      (if effectiveMaxPE r.sleeve cfg < v then [Reason.peHigh] else [])

/-- Profit-margin block of `passes_screen`. -/
def pmReasons (r : Row) (cfg : ScreenConfig) : List Reason :=
  if cfg.require_positive_profit_margin then
    match r.profitMargins with
    | none => if cfg.allow_missing_fields then [] else [Reason.missingPM]
    | some pm => if pm ≤ 0 then [Reason.pmNonpos] else []
  else []

/-- Debt-to-equity block of `passes_screen`. -/
def dteReasons (r : Row) (cfg : ScreenConfig) : List Reason :=
  match cfg.debt_to_equity_max with
  | none => []
  | some dmax =>
      match r.debtToEquity with
      | none => if cfg.allow_missing_fields then [] else [Reason.missingDTE]
      | some d => if dmax < d then [Reason.dteHigh] else []

/-- Return-on-equity block of `passes_screen`. -/
def roeReasons (r : Row) (cfg : ScreenConfig) : List Reason :=
  match cfg.min_return_on_equity with
  | none => []
  | some rmin =>
      match r.returnOnEquity with
      | none => if cfg.allow_missing_fields then [] else [Reason.missingROE]
      | some v => if v < rmin then [Reason.roeLow] else []

/-- Beta guardrail block of `passes_screen`. -/
def betaReasons (r : Row) (cfg : ScreenConfig) : List Reason :=
  match effectiveMaxBeta r.sleeve with
  | none => []
  | some bmax =>
      match r.beta with
      | none => if cfg.allow_missing_fields then [] else [Reason.missingBeta]
      | some b => if bmax < b then [Reason.betaHigh] else []

/-- `passes_screen(row, cfg)` of the source: accumulates reasons in source
order and passes iff no reason accumulated (`len(reasons) == 0`). -/
def passes_screen (r : Row) (cfg : ScreenConfig) : Bool × List Reason :=
  let reasons :=
    peReasons r cfg ++ pmReasons r cfg ++ dteReasons r cfg ++
    roeReasons r cfg ++ betaReasons r cfg
  (reasons.isEmpty, reasons)

/- Scoring factor weights with the defaults used by `score_row`
(`rules.get("w_pe", 1.0)` etc.). -/

/-- Sleeve weight `w_pe` with default 1.0. -/
def w_pe_of (sl : String) : ℚ := ((SLEEVE_RULES sl).map (fun ru => ru.w_pe)).getD 1.0

/-- Sleeve weight `w_quality` with default 0.7. -/
def w_quality_of (sl : String) : ℚ := ((SLEEVE_RULES sl).map (fun ru => ru.w_quality)).getD 0.7

/-- Sleeve weight `w_balance` with default 0.5. -/
def w_balance_of (sl : String) : ℚ := ((SLEEVE_RULES sl).map (fun ru => ru.w_balance)).getD 0.5

/-- Sleeve weight `w_risk` with default 0.5. -/
def w_risk_of (sl : String) : ℚ := ((SLEEVE_RULES sl).map (fun ru => ru.w_risk)).getD 0.5

/-- Sleeve weight `w_div` with default 0.1. -/
def w_div_of (sl : String) : ℚ := ((SLEEVE_RULES sl).map (fun ru => ru.w_div)).getD 0.1

/- The eleven `score += ...` contributions of `score_row`, one definition per
source line, in source order. -/

/-- Value term: `w_pe * (50.0 / pe) * 0.4` when P/E present and positive. -/
def termPE (w : ℚ) (pe : Option ℚ) : ℚ :=
  match pe with
  | some v => if 0 < v then w * (50 / v) * 0.4 else 0
  | none => 0

/-- Value term: `(10.0 / pb) * 0.4` when price-to-book present and positive. -/
def termPB (pb : Option ℚ) : ℚ :=
  match pb with
  | some v => if 0 < v then (10 / v) * 0.4 else 0
  | none => 0

/-- Value term: `w_div * (100.0 * div) * 0.4` when dividend yield present and
positive. -/
def termDiv (w : ℚ) (d : Option ℚ) : ℚ :=
  match d with
  | some v => if 0 < v then w * (100 * v) * 0.4 else 0
  | none => 0

/-- Momentum term: `(ret_3m / 10.0) * 0.3` when present (sign preserved). -/
def termRet3m (x : Option ℚ) : ℚ :=
  match x with
  | some v => (v / 10) * 0.3
  | none => 0

/-- Momentum term: `(ret_6m / 20.0) * 0.3` when present (sign preserved). -/
def termRet6m (x : Option ℚ) : ℚ :=
  match x with
  | some v => (v / 20) * 0.3
  | none => 0

/-- Momentum term: `(prox_52w / 20.0) * 0.3` when present (sign preserved). -/
def termProx (x : Option ℚ) : ℚ :=
  match x with
  | some v => (v / 20) * 0.3
  | none => 0

/-- Quality term: `w_quality * (5.0 * roe) * 0.2` when ROE present and
positive. -/
def termROE (w : ℚ) (x : Option ℚ) : ℚ :=
  match x with
  | some v => if 0 < v then w * (5 * v) * 0.2 else 0
  | none => 0

/-- Quality term: `w_quality * (5.0 * pm) * 0.2` when profit margin present
and positive. -/
def termPM (w : ℚ) (x : Option ℚ) : ℚ :=
  match x with
  | some v => if 0 < v then w * (5 * v) * 0.2 else 0
  | none => 0

/-- Quality term: `(rev_growth * 10.0) * 0.2` when revenue growth present and
positive. -/
def termRevGrowth (x : Option ℚ) : ℚ :=
  match x with
  | some v => if 0 < v then (v * 10) * 0.2 else 0
  | none => 0

/-- Risk term: `w_risk * (2.0 / beta) * 0.1` when beta present and positive,
else the flat `-0.1` penalty (also applied when beta is present but
non-positive, exactly as the source's `else: score -= 0.1`). -/
def termBeta (w : ℚ) (x : Option ℚ) : ℚ :=
  match x with
  | some v => if 0 < v then w * (2 / v) * 0.1 else -0.1
  | none => -0.1

/-- Risk term: `w_balance * (5.0 / (1.0 + dte)) * 0.1` when debt-to-equity
present and non-negative. -/
def termDTE (w : ℚ) (x : Option ℚ) : ℚ :=
  match x with
  | some v => if 0 ≤ v then w * (5 / (1 + v)) * 0.1 else 0
  | none => 0

/-- `score_row(row)` of the source: the multi-factor scorer, i.e. the body of
the function up to its `return score` at line 443.  The statements after
that `return` (the older single-factor scorer) are unreachable in Python and
are embedded separately as `legacy_score`. -/
def score_row (r : Row) : ℚ :=
  let w_pe := w_pe_of r.sleeve
  let w_quality := w_quality_of r.sleeve
  let w_balance := w_balance_of r.sleeve
  let w_risk := w_risk_of r.sleeve
  let w_div := w_div_of r.sleeve
  termPE w_pe (peUsed r) + termPB r.priceToBook + termDiv w_div r.dividendYield
    + termRet3m r.return_3m + termRet6m r.return_6m + termProx r.proximity_52w
    + termROE w_quality r.returnOnEquity + termPM w_quality r.profitMargins
    + termRevGrowth r.revenueGrowth
    + termBeta w_risk r.beta + termDTE w_balance r.debtToEquity

/-- Division attempted only after checking the denominator is positive;
`none` would signal an unguarded (zero or negative) denominator. -/
def divPos (a b : ℚ) : Option ℚ := if 0 < b then some (a / b) else none

/-- Checked variant of `termPE`: performs the source's division through
`divPos`. -/
def termPEChecked (w : ℚ) (pe : Option ℚ) : Option ℚ :=
  match pe with
  | some v => if 0 < v then (divPos 50 v).map (fun q => w * q * 0.4) else some 0
  | none => some 0

/-- Checked variant of `termPB`. -/
def termPBChecked (pb : Option ℚ) : Option ℚ :=
  match pb with
  | some v => if 0 < v then (divPos 10 v).map (fun q => q * 0.4) else some 0
  | none => some 0

/-- Checked variant of `termBeta`. -/
def termBetaChecked (w : ℚ) (x : Option ℚ) : Option ℚ :=
  match x with
  | some v => if 0 < v then (divPos 2 v).map (fun q => w * q * 0.1) else some (-0.1)
  | none => some (-0.1)

/-- Checked variant of `termDTE` (the division is by `1 + dte`). -/
def termDTEChecked (w : ℚ) (x : Option ℚ) : Option ℚ :=
  match x with
  | some v => if 0 ≤ v then (divPos 5 (1 + v)).map (fun q => w * q * 0.1) else some 0
  | none => some 0

/-- `score_row` with every division it performs (by P/E, by price-to-book,
by beta, by 1 + debt-to-equity) routed through `divPos`: `none` would mean
some executed division had a zero or negative denominator. -/
def score_rowChecked (r : Row) : Option ℚ :=
  let w_pe := w_pe_of r.sleeve
  let w_quality := w_quality_of r.sleeve
  let w_balance := w_balance_of r.sleeve
  let w_risk := w_risk_of r.sleeve
  let w_div := w_div_of r.sleeve
  match termPEChecked w_pe (peUsed r), termPBChecked r.priceToBook,
        termBetaChecked w_risk r.beta, termDTEChecked w_balance r.debtToEquity with
  | some a, some b, some j, some k =>
      some (a + b + termDiv w_div r.dividendYield
        + termRet3m r.return_3m + termRet6m r.return_6m + termProx r.proximity_52w
        + termROE w_quality r.returnOnEquity + termPM w_quality r.profitMargins
        + termRevGrowth r.revenueGrowth + j + k)
  | _, _, _, _ => none

/-- Value factor group (40%) as the claim states it. -/
def valueScore (r : Row) : ℚ :=
  termPE (w_pe_of r.sleeve) (peUsed r) + termPB r.priceToBook +
    termDiv (w_div_of r.sleeve) r.dividendYield

/-- Momentum factor group (30%) as the claim states it. -/
def momentumScore (r : Row) : ℚ :=
  termRet3m r.return_3m + termRet6m r.return_6m + termProx r.proximity_52w

/-- Quality factor group (20%) as the claim states it. -/
def qualityScore (r : Row) : ℚ :=
  termROE (w_quality_of r.sleeve) r.returnOnEquity +
    termPM (w_quality_of r.sleeve) r.profitMargins + termRevGrowth r.revenueGrowth

/-- Risk/balance factor group (10%) as the claim states it. -/
def riskScore (r : Row) : ℚ :=
  termBeta (w_risk_of r.sleeve) r.beta + termDTE (w_balance_of r.sleeve) r.debtToEquity

/-- The older single-factor scorer: the unreachable code after the first
`return` of `score_row` (source lines 445-479), embedded for comparison. -/
def legacy_score (r : Row) : ℚ :=
  let w_pe := w_pe_of r.sleeve
  let w_quality := w_quality_of r.sleeve
  let w_balance := w_balance_of r.sleeve
  let w_risk := w_risk_of r.sleeve
  let w_div := w_div_of r.sleeve
  (match peUsed r with
   | some v => if 0 < v then w_pe * (100 / min v 200) else -0.5
   | none => -0.5)
  + (match r.returnOnEquity with
     | some v => w_quality * (10 * v)
     | none => 0)
  + (match r.profitMargins with
     | some v => w_quality * (5 * v)
     | none => 0)
  + (match r.debtToEquity with
     | some v => if 0 ≤ v then w_balance * (5 / (1 + v)) else 0
     | none => 0)
  + (match r.beta with
     | some v => if 0 < v then w_risk * (2 / v) else -0.1
     | none => -0.1)
  + (match r.dividendYield with
     | some v => if 0 < v then w_div * (100 * v) else 0
     | none => 0)

/- ------------------------------------------------------------------ -/
/- Metrics provider and fetch                                          -/
/- ------------------------------------------------------------------ -/

/-- The eleven fundamental fields `fetch_metrics` extracts from `t.info`
(after `safe_float`: a NaN or unparsable value has already become `none`).
`peg` carries the source's `pegRatio` key. -/
structure RawInfo where
  trailingPE : Option ℚ
  forwardPE : Option ℚ
  profitMargins : Option ℚ
  returnOnEquity : Option ℚ
  debtToEquity : Option ℚ
  marketCap : Option ℚ
  dividendYield : Option ℚ
  beta : Option ℚ
  priceToBook : Option ℚ
  peg : Option ℚ
  revenueGrowth : Option ℚ
deriving DecidableEq, Repr

/-- An info snapshot with every field absent (what `t.info or {}` yields when
the provider answers with nothing). -/
def emptyInfo : RawInfo :=
  ⟨none, none, none, none, none, none, none, none, none, none, none⟩

/-- The momentum block `fetch_metrics` derives from `t.history`:
3-month return, 6-month return, 52-week-high proximity.  The price
arithmetic itself is outside the claims; an erroring or empty history is the
`Except.error` case. -/
structure Momentum where
  return_3m : Option ℚ
  return_6m : Option ℚ
  proximity_52w : Option ℚ
deriving DecidableEq, Repr

/-- `fetch_metrics(ticker)` of the source, with the two external calls as
parameters.  The `t.info` fetch (`infoOf`) is NOT wrapped in any try/except
in the source, so its failure propagates; the history/momentum block
(`histOf`) IS wrapped (`except: return_3m = return_6m = proximity_52w =
None`), so its failure degrades to absent momentum fields.  The `sleeve`
field is a placeholder here; `build_portfolio` assigns it
(`m["sleeve"] = sleeve`). -/
def fetch_metrics (infoOf : String → Except String RawInfo)
    (histOf : String → Except String Momentum) (tk : String) :
    Except String Row :=
  match infoOf tk with
  | Except.error e => Except.error e
  | Except.ok i =>
      let m : Momentum :=
        match histOf tk with
        | Except.error _ => ⟨none, none, none⟩
        | Except.ok h => h
      Except.ok
        { ticker := tk, sleeve := "",
          trailingPE := i.trailingPE, forwardPE := i.forwardPE,
          profitMargins := i.profitMargins, returnOnEquity := i.returnOnEquity,
          debtToEquity := i.debtToEquity, marketCap := i.marketCap,
          dividendYield := i.dividendYield, beta := i.beta,
          priceToBook := i.priceToBook, peg := i.peg,
          revenueGrowth := i.revenueGrowth,
          return_3m := m.return_3m, return_6m := m.return_6m,
          proximity_52w := m.proximity_52w }

/- ------------------------------------------------------------------ -/
/- Universe table construction                                         -/
/- ------------------------------------------------------------------ -/

/-- A universe-table row (`all_df` row): the metrics row extended with the
`passes_screen`, `fail_reasons`, `score` and `pe_used` columns that
`build_portfolio` adds. -/
structure Scored extends Row where
  passed : Bool
  fail_reasons : List Reason
  score : ℚ
  pe_used : Option ℚ
deriving DecidableEq, Repr

/-- The inner loop of `build_portfolio` for one sleeve: fetch each ticker's
metrics and attach the sleeve name.  A fetch error propagates (there is no
try/except around `fetch_metrics` in the source). -/
def rowsForSleeve (infoOf : String → Except String RawInfo)
    (histOf : String → Except String Momentum) (sl : String) :
    List String → Except String (List Row)
  | [] => Except.ok []
  | tk :: tks =>
      match fetch_metrics infoOf histOf tk with
      | Except.error e => Except.error e
      | Except.ok r =>
          match rowsForSleeve infoOf histOf sl tks with
          | Except.error e => Except.error e
          | Except.ok rest => Except.ok ({ r with sleeve := sl } :: rest)

/-- The `rows` accumulation of `build_portfolio`: one row per (sleeve,
ticker) list entry, in universe order. -/
def buildRows (infoOf : String → Except String RawInfo)
    (histOf : String → Except String Momentum) :
    List (String × List String) → Except String (List Row)
  | [] => Except.ok []
  | (sl, tks) :: rest =>
      match rowsForSleeve infoOf histOf sl tks with
      | Except.error e => Except.error e
      | Except.ok rs =>
          match buildRows infoOf histOf rest with
          | Except.error e => Except.error e
          | Except.ok rest' => Except.ok (rs ++ rest')

/-- Screening/scoring pass of `build_portfolio`: adds the `passes_screen`,
`fail_reasons`, `score` and `pe_used` columns to every row. -/
def scoreTable (cfg : ScreenConfig) (rows : List Row) : List Scored :=
  rows.map (fun r =>
    { toRow := r,
      passed := (passes_screen r cfg).1,
      fail_reasons := (passes_screen r cfg).2,
      score := score_row r,
      pe_used := peUsed r })

/-- The universe table (`all_df`) before the final presentation sort. -/
def buildTable (infoOf : String → Except String RawInfo)
    (histOf : String → Except String Momentum)
    (univ : List (String × List String)) (cfg : ScreenConfig) :
    Except String (List Scored) :=
  match buildRows infoOf histOf univ with
  | Except.error e => Except.error e
  | Except.ok rows => Except.ok (scoreTable cfg rows)

/- ------------------------------------------------------------------ -/
/- Sorting (pandas sort_values)                                        -/
/- ------------------------------------------------------------------ -/

/-- Insert into a sorted list: `x` goes before the first `y` with `r x y`. -/
def insertBy {α : Type} (r : α → α → Bool) (x : α) : List α → List α
  | [] => [x]
  | y :: ys => if r x y then x :: y :: ys else y :: insertBy r x ys

/-- Insertion sort by a strict comparator; stable on ties (the documented
tie-break choice; pandas leaves tie order unspecified and the spec accepts
any stable order). -/
def sortBy {α : Type} (r : α → α → Bool) : List α → List α
  | [] => []
  | x :: xs => insertBy r x (sortBy r xs)

/-- `sort_values("score", ascending=False)`. -/
def sortDesc (l : List Scored) : List Scored :=
  sortBy (fun a b => decide (b.score < a.score)) l

/-- Final `picks_df.sort_values(["sleeve", "target_weight"],
ascending=[True, False])` comparator, applied below. -/
def pickBefore (p q : α) (sl : α → String) (wt : α → ℚ) : Bool :=
  if sl p < sl q then true
  else if sl p = sl q then decide (wt q < wt p)
  else false

/- ------------------------------------------------------------------ -/
/- Selection and weights                                               -/
/- ------------------------------------------------------------------ -/

/-- Rows of a given sleeve, in table order
(`all_df[all_df["sleeve"] == sleeve]`). -/
def sleeveRows (table : List Scored) (sl : String) : List Scored :=
  table.filter (fun r => r.sleeve == sl)

/-- One instrument-kind pool of `build_portfolio`'s selection: passing
candidates sorted by descending score, first `n` taken; if fewer than `n`
pass, the whole pool re-sorted by descending score with the first `n` taken
(the fall-back-regardless-of-screen rule). -/
def pickFromPool (pool : List Scored) (n : Nat) : List Scored :=
  let passing := (sortDesc (pool.filter (fun r => r.passed))).take n
  if passing.length < n then (sortDesc pool).take n else passing

/-- Per-sleeve selection of `build_portfolio`: the sleeve's rows split into
the ETF pool (`ticker.isin(ETF_TICKERS)`) and the stock pool, each pool
taking its hardcoded target of 6 (`target_etfs = 6`, `target_stocks = 6` in
the source), concatenated ETFs first. -/
def selectSleeve (table : List Scored) (sl : String) : List Scored :=
  let sleeve_df := sleeveRows table sl
  let target_etfs : Nat := 6
  let target_stocks : Nat := 6
  let etfs := sleeve_df.filter (fun r => ETF_TICKERS.contains r.ticker)
  let stocks := sleeve_df.filter (fun r => !ETF_TICKERS.contains r.ticker)
  pickFromPool etfs target_etfs ++ pickFromPool stocks target_stocks

/-- A row of the final `picks_df`: the columns `build_portfolio` writes for
each selected candidate. -/
structure Pick where
  sleeve : String
  ticker : String
  target_weight : ℚ
  pe_used : Option ℚ
  trailingPE : Option ℚ
  forwardPE : Option ℚ
  dividendYield : Option ℚ
  beta : Option ℚ
  score : ℚ
  passed : Bool
  fail_reasons : List Reason
deriving DecidableEq, Repr

/-- One appended pick dict of `build_portfolio`. -/
def toPick (sl : String) (wt : ℚ) (r : Scored) : Pick :=
  { sleeve := sl, ticker := r.ticker, target_weight := wt,
    pe_used := r.pe_used, trailingPE := r.trailingPE, forwardPE := r.forwardPE,
    dividendYield := r.dividendYield, beta := r.beta, score := r.score,
    passed := r.passed, fail_reasons := r.fail_reasons }

/-- The pick-accumulation loop of `build_portfolio` over `sleeve_weights`,
before normalization.  `num_picks` mirrors the source's
`PICKS_PER_SLEEVE.get(sleeve, 12)`, which the source computes and never
uses.  `w / len(sleeve_picks)` raises `ZeroDivisionError` in Python when a
sleeve selected no candidates; that is the `Except.error "division by
zero"` case (the message is Python's, naming no sleeve). -/
def rawPicks (table : List Scored) (ppcfg : List (String × Nat)) :
    List (String × ℚ) → Except String (List Pick)
  | [] => Except.ok []
  | (sl, w) :: rest =>
      let num_picks := (ppcfg.lookup sl).getD 12
      let sleeve_picks := selectSleeve table sl
      if sleeve_picks.length = 0 then Except.error "division by zero"
      else
        let per_pick_weight := w / (sleeve_picks.length : ℚ)
        match rawPicks table ppcfg rest with
        | Except.error e => Except.error e
        | Except.ok tail =>
            Except.ok (sleeve_picks.map (toPick sl per_pick_weight) ++ tail)

/-- Sum of `target_weight` over a picks table. -/
def pickSum (l : List Pick) : ℚ := (l.map (fun p => p.target_weight)).sum

/-- The final normalization of `build_portfolio`:
`picks_df["target_weight"] / picks_df["target_weight"].sum()`. -/
def normalizePicks (l : List Pick) : List Pick :=
  let total := pickSum l
  l.map (fun p => { p with target_weight := p.target_weight / total })

/-- Final presentation sort of the picks table. -/
def sortPicksFinal (l : List Pick) : List Pick :=
  sortBy (fun p q => pickBefore p q (fun x => x.sleeve) (fun x => x.target_weight)) l

/-- Final presentation sort of the universe table
(`all_df.sort_values(["sleeve", "score"], ascending=[True, False])`). -/
def sortTableFinal (l : List Scored) : List Scored :=
  sortBy (fun p q => pickBefore p q (fun x => x.sleeve) (fun x => x.score)) l

/-- `build_portfolio(universe, sleeve_weights, screen, picks_per_sleeve)` of
the source: build the universe table, select and weight picks per sleeve,
normalize, and return both tables.  An empty picks table would make
`picks_df["target_weight"]` raise `KeyError` in Python (empty DataFrame has
no columns); a Python exception is an `Except.error`. -/
def build_portfolio (infoOf : String → Except String RawInfo)
    (histOf : String → Except String Momentum)
    (univ : List (String × List String))
    (sleeve_weights : List (String × ℚ)) (screen : ScreenConfig)
    (picks_per_sleeve : List (String × Nat)) :
    Except String (List Pick × List Scored) :=
  match buildTable infoOf histOf univ screen with
  | Except.error e => Except.error e
  | Except.ok table =>
      match rawPicks table picks_per_sleeve sleeve_weights with
      | Except.error e => Except.error e
      | Except.ok raw =>
          if raw.isEmpty then Except.error "KeyError: target_weight"
          else Except.ok (sortPicksFinal (normalizePicks raw), sortTableFinal table)

/- ------------------------------------------------------------------ -/
/- Auxiliary definitions for stating the verified properties           -/
/- ------------------------------------------------------------------ -/

/-- The (sleeve, ticker) pairs a universe configuration induces, one per
ticker-list entry, in order. -/
def universePairs : List (String × List String) → List (String × String)
  | [] => []
  | (sl, tks) :: rest => tks.map (fun tk => (sl, tk)) ++ universePairs rest

/-- A provider whose `t.info` always answers with an all-absent snapshot. -/
def iaAll : String → Except String RawInfo := fun _ => Except.ok emptyInfo

/-- A history provider that always answers with no momentum data. -/
def haNone : String → Except String Momentum :=
  fun _ => Except.ok ⟨none, none, none⟩

/- Concrete run for C4's witness: one sleeve, one ticker. -/

/-- C4 demo run: universe. -/
def uC4 : List (String × List String) := [("anchor", ["AAPL"])]

/-- C4 demo run: sleeve weights. -/
def wC4 : List (String × ℚ) := [("anchor", 0.3)]

/-- C4 demo run: its universe table. -/
def tC4 : List Scored :=
  match buildTable iaAll haNone uC4 SCREEN with
  | Except.ok t => t
  | Except.error _ => []

/-- C4 demo run: its pre-normalization picks. -/
def rawC4 : List Pick :=
  match rawPicks tC4 PICKS_PER_SLEEVE wC4 with
  | Except.ok l => l
  | Except.error _ => []

/-- C4 demo run: its final picks table. -/
def picksC4 : List Pick :=
  match build_portfolio iaAll haNone uC4 wC4 SCREEN PICKS_PER_SLEEVE with
  | Except.ok pr => pr.1
  | Except.error _ => []

/-- C4 demo run: its final universe table. -/
def tableC4 : List Scored :=
  match build_portfolio iaAll haNone uC4 wC4 SCREEN PICKS_PER_SLEEVE with
  | Except.ok pr => pr.2
  | Except.error _ => []

/- Concrete run for C5's counterexample: a sleeve with 12 candidates, all of
them in the composite-instrument (ETF) set, of which selection can return at
most 6 because the per-pool targets do not backfill. -/

/-- C5 counterexample run: universe (12 ETF candidates for sleeve
"anchor", whose configured target pick count is 12). -/
def uC5 : List (String × List String) :=
  [("anchor", ["VOO", "VTI", "IVV", "ITOT", "SPY", "SCHD",
               "VTV", "IWD", "DGRO", "QUAL", "HDV", "SCHG"])]

/-- C5 counterexample run: sleeve weights. -/
def wC5 : List (String × ℚ) := [("anchor", 1)]

/-- C5 counterexample run: number of final picks. -/
def picksLenC5 : Nat :=
  match build_portfolio iaAll haNone uC5 wC5 SCREEN PICKS_PER_SLEEVE with
  | Except.ok pr => pr.1.length
  | Except.error _ => 0

/-- C5 counterexample run: number of candidate rows for the sleeve. -/
def candsLenC5 : Nat :=
  match build_portfolio iaAll haNone uC5 wC5 SCREEN PICKS_PER_SLEEVE with
  | Except.ok pr => pr.2.length
  | Except.error _ => 0

/- Concrete run for C6's counterexample: the sleeve's configured target pick
count is 4, its composite-instrument pool has 8 candidates; the claimed
per-pool target would be 4 / 2 = 2 picks, the code takes 6. -/

/-- C6 counterexample run: universe (8 ETF candidates). -/
def uC6 : List (String × List String) :=
  [("anchor", ["VOO", "VTI", "IVV", "ITOT", "SPY", "SCHD", "VTV", "IWD"])]

/-- C6 counterexample run: sleeve weights. -/
def wC6 : List (String × ℚ) := [("anchor", 1)]

/-- C6 counterexample run: per-sleeve target pick counts, 4 for the sleeve. -/
def ppcC6 : List (String × Nat) := [("anchor", 4)]

/-- C6 counterexample run: number of final picks. -/
def picksLenC6 : Nat :=
  match build_portfolio iaAll haNone uC6 wC6 SCREEN ppcC6 with
  | Except.ok pr => pr.1.length
  | Except.error _ => 0

/- Concrete run for C7: sleeve "energy" is listed in sleeve_weights but has
no candidates in the universe. -/

/-- C7 failing run: sleeve "energy" has weight 0.04 but an empty candidate
pool. -/
def runC7 : Except String (List Pick × List Scored) :=
  build_portfolio iaAll haNone [("anchor", ["AAPL"])]
    [("anchor", 0.3), ("energy", 0.04)] SCREEN PICKS_PER_SLEEVE

/- Concrete runs for C8: a provider whose `t.info` fetch raises for one
ticker, and a provider whose history fetch always raises. -/

/-- C8: an info provider that raises (e.g. an HTTP error) for ticker "BAD"
and answers normally otherwise. -/
def ioBad : String → Except String RawInfo :=
  fun tk => if tk == "BAD" then Except.error "HTTPError" else Except.ok emptyInfo

/-- C8 failing run: the metrics fetch fails for the single ticker "BAD". -/
def runC8 : Except String (List Pick × List Scored) :=
  build_portfolio ioBad haNone [("anchor", ["AAPL", "BAD"])]
    [("anchor", 1)] SCREEN PICKS_PER_SLEEVE

/-- C8: a history provider that always raises. -/
def haBad : String → Except String Momentum :=
  fun _ => Except.error "history fetch failed"

/-- C8 tolerated-failure run: only the guarded history fetch fails; the
momentum fields of every row of the resulting table. -/
def momC8 : List (Option ℚ × Option ℚ × Option ℚ) :=
  match buildTable iaAll haBad [("anchor", ["AAPL"])] SCREEN with
  | Except.ok t => t.map (fun r => (r.return_3m, r.return_6m, r.proximity_52w))
  | Except.error _ => [(some 0, some 0, some 0)]

/- Concrete run for C9: the shipped "international" sleeve list contains
"BABA" twice; a provider that reports a dividend yield for BABA makes both
copies score highest, so both enter the picks. -/

/-- C9: provider reporting a dividend yield only for BABA. -/
def ioC9 : String → Except String RawInfo :=
  fun tk =>
    if tk == "BABA" then Except.ok { emptyInfo with dividendYield := some 1 }
    else Except.ok emptyInfo

/-- C9 run: the shipped "international" sleeve of `UNIVERSE`. -/
def uC9 : List (String × List String) :=
  [("international", ((UNIVERSE.lookup "international").getD []))]

/-- C9 run: sleeve weights. -/
def wC9 : List (String × ℚ) := [("international", 1)]

/-- C9 run: the run itself. -/
def runC9 : Except String (List Pick × List Scored) :=
  build_portfolio ioC9 haNone uC9 wC9 SCREEN PICKS_PER_SLEEVE

/-- C9 run: its final universe table. -/
def tableC9 : List Scored :=
  match runC9 with
  | Except.ok pr => pr.2
  | Except.error _ => []

/-- C9 run: its final picks table. -/
def picksC9 : List Pick :=
  match runC9 with
  | Except.ok pr => pr.1
  | Except.error _ => []

/-- C9 run: its universe table before the final presentation sort. -/
def tC9 : List Scored :=
  match buildTable ioC9 haNone uC9 SCREEN with
  | Except.ok t => t
  | Except.error _ => []

/- Concrete rows and configurations for C2's witness. -/

/-- C2 witness: a configuration that does not tolerate missing fields. -/
def cfgStrict : ScreenConfig := { SCREEN with allow_missing_fields := false }

/-- C2 witness: a row with trailing P/E 150 in sleeve "anchor"
(whose `max_pe` is 35). -/
def rowHighPE : Row := { allAbsentRow "B" "anchor" with trailingPE := some 150 }

/- ------------------------------------------------------------------ -/
/- Theorems                                                            -/
/- ------------------------------------------------------------------ -/

/-- The checked P/E term never hits an unguarded division. -/
theorem termPEChecked_eq (w : ℚ) (pe : Option ℚ) :
    termPEChecked w pe = some (termPE w pe) := by
  cases pe with
  | none => rfl
  | some v =>
      by_cases h : 0 < v <;> simp [termPEChecked, termPE, divPos, h]

/-- The checked price-to-book term never hits an unguarded division. -/
theorem termPBChecked_eq (pb : Option ℚ) :
    termPBChecked pb = some (termPB pb) := by
  cases pb with
  | none => rfl
  | some v =>
      by_cases h : 0 < v <;> simp [termPBChecked, termPB, divPos, h]

/-- The checked beta term never hits an unguarded division. -/
theorem termBetaChecked_eq (w : ℚ) (x : Option ℚ) :
    termBetaChecked w x = some (termBeta w x) := by
  cases x with
  | none => rfl
  | some v =>
      by_cases h : 0 < v <;> simp [termBetaChecked, termBeta, divPos, h]

/-- The checked debt-to-equity term never hits an unguarded division: the
guard `0 ≤ dte` makes the denominator `1 + dte` positive. -/
theorem termDTEChecked_eq (w : ℚ) (x : Option ℚ) :
    termDTEChecked w x = some (termDTE w x) := by
  cases x with
  | none => rfl
  | some v =>
      by_cases h : 0 ≤ v
      · have hpos : 0 < 1 + v := by linarith
        simp [termDTEChecked, termDTE, divPos, h, hpos]
      · simp [termDTEChecked, termDTE, h]

/-- C1: `score_row` is total and finite: every division it performs (by P/E,
by price-to-book, by beta, by 1 + debt-to-equity) executes only behind a
positive-denominator guard — the checked scorer returns `some` of the plain
score on every row — and on the all-fields-absent snapshot the score is
exactly -1/10, the flat beta-absence penalty, for every ticker and sleeve. -/
theorem C1_score_total_and_finite :
    (∀ r : Row, score_rowChecked r = some (score_row r)) ∧
    (∀ tk sl : String, score_row (allAbsentRow tk sl) = -0.1) := by
  constructor
  · intro r
    simp only [score_rowChecked, score_row, termPEChecked_eq, termPBChecked_eq,
      termBetaChecked_eq, termDTEChecked_eq]
  · intro tk sl
    simp only [score_row, allAbsentRow, peUsed, termPE, termPB, termDiv,
      termRet3m, termRet6m, termProx, termROE, termPM, termRevGrowth,
      termBeta, termDTE]
    norm_num

/-- Everything the profit-margin block can emit. -/
theorem mem_pmReasons (r : Row) (cfg : ScreenConfig) :
    ∀ x ∈ pmReasons r cfg, x = Reason.missingPM ∨ x = Reason.pmNonpos := by
  intro x hx
  unfold pmReasons at hx
  split at hx
  · split at hx <;> split at hx <;> simp_all
  · simp at hx

/-- Everything the debt-to-equity block can emit. -/
theorem mem_dteReasons (r : Row) (cfg : ScreenConfig) :
    ∀ x ∈ dteReasons r cfg, x = Reason.missingDTE ∨ x = Reason.dteHigh := by
  intro x hx
  unfold dteReasons at hx
  split at hx
  · simp at hx
  · split at hx <;> split at hx <;> simp_all

/-- Everything the return-on-equity block can emit. -/
theorem mem_roeReasons (r : Row) (cfg : ScreenConfig) :
    ∀ x ∈ roeReasons r cfg, x = Reason.missingROE ∨ x = Reason.roeLow := by
  intro x hx
  unfold roeReasons at hx
  split at hx
  · simp at hx
  · split at hx <;> split at hx <;> simp_all

/-- Everything the beta block can emit. -/
theorem mem_betaReasons (r : Row) (cfg : ScreenConfig) :
    ∀ x ∈ betaReasons r cfg, x = Reason.missingBeta ∨ x = Reason.betaHigh := by
  intro x hx
  unfold betaReasons at hx
  rcases hb : effectiveMaxBeta r.sleeve with _ | bmax <;> rw [hb] at hx
  · simp at hx
  · rcases hβ : r.beta with _ | b <;> rw [hβ] at hx <;>
      split at hx <;> simp_all

/-- A P/E tag is in the full reason list iff it is in the P/E block: the
other four blocks never emit one. -/
theorem pe_tag_mem (r : Row) (cfg : ScreenConfig) (x : Reason)
    (hx : x = Reason.missingPE ∨ x = Reason.peLow ∨ x = Reason.peHigh) :
    (x ∈ (passes_screen r cfg).2 ↔ x ∈ peReasons r cfg) := by
  simp only [passes_screen, List.mem_append]
  constructor
  · intro h
    rcases h with ((((h | h) | h) | h) | h)
    · exact h
    · rcases mem_pmReasons r cfg x h with h' | h' <;>
        rcases hx with hx | hx | hx <;> simp_all
    · rcases mem_dteReasons r cfg x h with h' | h' <;>
        rcases hx with hx | hx | hx <;> simp_all
    · rcases mem_roeReasons r cfg x h with h' | h' <;>
        rcases hx with hx | hx | hx <;> simp_all
    · rcases mem_betaReasons r cfg x h with h' | h' <;>
        rcases hx with hx | hx | hx <;> simp_all
  · intro h
    exact Or.inl (Or.inl (Or.inl (Or.inl h)))

/-- C2: the P/E rule of `passes_screen`: "P/E used" (trailing, else forward)
absent yields the missing-PE reason exactly when missing fields are not
tolerated; present, a P/E reason is emitted exactly when the value is below
`pe_min` (the low tag) or above the effective ceiling — the sleeve's
`max_pe` when the sleeve has rules, else `pe_max` (the high tag); and the
row passes iff no reason at all accumulated. -/
theorem C2_pe_rule (r : Row) (cfg : ScreenConfig) :
    (peUsed r = none →
      (Reason.missingPE ∈ (passes_screen r cfg).2 ↔
        cfg.allow_missing_fields = false)) ∧
    (∀ v : ℚ, peUsed r = some v →
      ((Reason.peLow ∈ (passes_screen r cfg).2 ↔ v < cfg.pe_min) ∧
       (Reason.peHigh ∈ (passes_screen r cfg).2 ↔ effectiveMaxPE r.sleeve cfg < v))) ∧
    ((passes_screen r cfg).1 = true ↔ (passes_screen r cfg).2 = []) := by
  refine ⟨?_, ?_, ?_⟩
  · intro hpe
    rw [pe_tag_mem r cfg Reason.missingPE (Or.inl rfl)]
    unfold peReasons
    rw [hpe]
    by_cases ha : cfg.allow_missing_fields <;> simp [ha]
  · intro v hpe
    constructor
    · rw [pe_tag_mem r cfg Reason.peLow (Or.inr (Or.inl rfl))]
      unfold peReasons
      rw [hpe]
      by_cases h1 : v < cfg.pe_min <;>
        by_cases h2 : effectiveMaxPE r.sleeve cfg < v <;> simp [h1, h2]
    · rw [pe_tag_mem r cfg Reason.peHigh (Or.inr (Or.inr rfl))]
      unfold peReasons
      rw [hpe]
      by_cases h1 : v < cfg.pe_min <;>
        by_cases h2 : effectiveMaxPE r.sleeve cfg < v <;> simp [h1, h2]
  · show (passes_screen r cfg).2.isEmpty = true ↔ (passes_screen r cfg).2 = []
    cases (passes_screen r cfg).2 <;> simp

/-- C2 witness: on the all-absent row with an intolerant configuration the
missing-PE reason is present; on a trailing P/E of 150 in sleeve "anchor"
(ceiling 35) the high tag is present; and the pass bit matches reason
emptiness on the strict run. -/
theorem C2_pe_rule_witness :
    Reason.missingPE ∈ (passes_screen (allAbsentRow "A" "x") cfgStrict).2 ∧
    Reason.peHigh ∈ (passes_screen rowHighPE SCREEN).2 ∧
    ((passes_screen (allAbsentRow "A" "x") cfgStrict).1 = true ↔
      (passes_screen (allAbsentRow "A" "x") cfgStrict).2 = []) :=
  ⟨((C2_pe_rule (allAbsentRow "A" "x") cfgStrict).1 (by rfl)).mpr (by rfl),
   (((C2_pe_rule rowHighPE SCREEN).2.1 150 (by rfl)).2).mpr (by decide),
   (C2_pe_rule (allAbsentRow "A" "x") cfgStrict).2.2⟩

/-- C3: `score_row` is exactly the newer multi-factor composite — the sum of
the value, momentum, quality and risk factor groups as the claim lists them
— and the older single-factor scorer (the unreachable code after the first
`return`, embedded as `legacy_score`) has no effect on the result: it
disagrees with `score_row` already on the all-absent row. -/
theorem C3_multifactor_composite :
    (∀ r : Row, score_row r =
      valueScore r + momentumScore r + qualityScore r + riskScore r) ∧
    score_row (allAbsentRow "T" "anchor") ≠ legacy_score (allAbsentRow "T" "anchor") := by
  constructor
  · intro r
    simp only [score_row, valueScore, momentumScore, qualityScore, riskScore]
    ring
  · with_unfolding_all decide

/-- C10: `pegRatio` and `marketCap` never influence screening or scoring:
two rows identical except in those two fields screen and score identically. -/
theorem C10_peg_marketcap_noninterference :
    ∀ (r : Row) (x y : Option ℚ) (cfg : ScreenConfig),
      passes_screen { r with peg := x, marketCap := y } cfg = passes_screen r cfg ∧
      score_row { r with peg := x, marketCap := y } = score_row r := by
  intro r x y cfg
  exact ⟨rfl, rfl⟩

/-- Inserting is a permutation of consing. -/
theorem insertBy_perm {α : Type} (r : α → α → Bool) (x : α) (l : List α) :
    List.Perm (insertBy r x l) (x :: l) := by
  induction l with
  | nil => exact List.Perm.refl _
  | cons y ys ih =>
      unfold insertBy
      split
      · exact List.Perm.refl _
      · exact (List.Perm.cons y ih).trans (List.Perm.swap x y ys)

/-- The insertion sort is a permutation of its input. -/
theorem sortBy_perm {α : Type} (r : α → α → Bool) (l : List α) :
    List.Perm (sortBy r l) l := by
  induction l with
  | nil => exact List.Perm.refl _
  | cons x xs ih => exact (insertBy_perm r x (sortBy r xs)).trans (List.Perm.cons x ih)

/-- Sorting preserves length. -/
theorem sortBy_length {α : Type} (r : α → α → Bool) (l : List α) :
    (sortBy r l).length = l.length :=
  (sortBy_perm r l).length_eq

/-- Length of one pool's selection: the take-or-fallback always yields
`min n pool.length` picks. -/
theorem pickFromPool_length (pool : List Scored) (n : Nat) :
    (pickFromPool pool n).length = min n pool.length := by
  unfold pickFromPool
  have hfle : (pool.filter (fun r => r.passed)).length ≤ pool.length :=
    List.length_filter_le _ _
  by_cases h :
      ((sortDesc (pool.filter (fun r => r.passed))).take n).length < n
  · rw [if_pos h, List.length_take]
    unfold sortDesc
    rw [sortBy_length]
  · rw [if_neg h, List.length_take]
    unfold sortDesc at h ⊢
    rw [List.length_take, sortBy_length] at h
    rw [sortBy_length]
    omega

/-- C5 (amended): per-pool fill guarantee of `selectSleeve`: each
instrument-kind pool contributes exactly `min 6 (pool size)` picks —
in particular a pool with at least 6 candidates (pass or fail) always
contributes its full per-pool target of 6, but a sleeve's total candidate
count does not fill the sleeve, because the two pools never backfill each
other. -/
theorem C5_pool_fill (table : List Scored) (sl : String) :
    (selectSleeve table sl).length =
      min 6 ((sleeveRows table sl).filter
        (fun r => ETF_TICKERS.contains r.ticker)).length +
      min 6 ((sleeveRows table sl).filter
        (fun r => !ETF_TICKERS.contains r.ticker)).length := by
  simp only [selectSleeve]
  rw [List.length_append, pickFromPool_length, pickFromPool_length]

/-- C5 counterexample: a run whose single sleeve has 12 candidates (its
configured target count), all of them composite instruments; the sleeve
receives only 6 picks, not 12. -/
theorem C5_sleeve_count_counterexample : picksLenC5 = 6 ∧ candsLenC5 = 12 := by
  constructor
  · with_unfolding_all rfl
  · with_unfolding_all rfl

/-- The pick loop never reads the per-sleeve pick-count configuration: the
`num_picks` the source computes from it is dead. -/
theorem rawPicks_ppc (c1 c2 : List (String × Nat)) :
    ∀ (table : List Scored) (w : List (String × ℚ)),
      rawPicks table c1 w = rawPicks table c2 w := by
  intro table w
  induction w with
  | nil => rfl
  | cons hw rest ih =>
      obtain ⟨sl, wt⟩ := hw
      simp only [rawPicks]
      rw [ih]

/-- C6 (amended): the per-pool target is the hardcoded 6 for both pools and
does not vary with the sleeve's configured target pick count:
`build_portfolio` returns identical output under any two pick-count
configurations.  (With the shipped configuration, in which every sleeve's
target count is 12, the constant 6 coincides with an even split.) -/
theorem C6_picks_config_irrelevant (infoOf : String → Except String RawInfo)
    (histOf : String → Except String Momentum)
    (u : List (String × List String)) (w : List (String × ℚ))
    (s : ScreenConfig) (c1 c2 : List (String × Nat)) :
    build_portfolio infoOf histOf u w s c1 = build_portfolio infoOf histOf u w s c2 := by
  unfold build_portfolio
  simp only [rawPicks_ppc c1 c2]

/-- C6 counterexample: with the sleeve's target pick count configured as 4
and 8 composite-instrument candidates available, the claim's even split
would select 2 picks; the code selects 6. -/
theorem C6_target_count_counterexample : picksLenC6 = 6 := by
  with_unfolding_all rfl

/-- C7: a sleeve listed in `sleeve_weights` with an empty candidate pool
makes `build_portfolio` raise Python's bare `ZeroDivisionError` — the error
message is "division by zero", which does not name the offending sleeve
("energy" here). -/
theorem C7_empty_sleeve_error :
    runC7 = Except.error "division by zero" ∧
    ¬ "energy".data <:+: "division by zero".data := by
  constructor
  · with_unfolding_all rfl
  · decide

/-- C8: a failing metrics fetch for a single ticker ("BAD") aborts the whole
`build_portfolio` run with the provider's exception, because the source only
guards the history sub-fetch, not the `t.info` fetch; a failure of the
guarded history sub-fetch alone is tolerated and yields absent momentum
fields with the run continuing. -/
theorem C8_fetch_failure :
    runC8 = Except.error "HTTPError" ∧ momC8 = [(none, none, none)] := by
  constructor
  · with_unfolding_all rfl
  · with_unfolding_all rfl

/-- Sum of mapped divisions is the division of the sum. -/
theorem sum_div_map (l : List Pick) (t : ℚ) :
    (l.map (fun p => p.target_weight / t)).sum =
      (l.map (fun p => p.target_weight)).sum / t := by
  induction l with
  | nil => simp
  | cons p ps ih => simp [ih, add_div]

/-- The normalization step divides every weight by the pre-normalization
total. -/
theorem pickSum_normalize (l : List Pick) :
    pickSum (normalizePicks l) = pickSum l / pickSum l := by
  simp only [normalizePicks, pickSum]
  rw [List.map_map]
  exact sum_div_map l _

/-- The final presentation sort preserves the weight sum. -/
theorem pickSum_sortPicksFinal (l : List Pick) :
    pickSum (sortPicksFinal l) = pickSum l := by
  unfold pickSum sortPicksFinal
  exact ((sortBy_perm _ l).map (fun p => p.target_weight)).sum_eq

/-- C4: whenever `build_portfolio` returns picks and the run's
pre-normalization picks carried positive total weight, the returned
`target_weight` column sums to exactly 1 (hence within any tolerance). -/
theorem C4_weights_sum_one (infoOf : String → Except String RawInfo)
    (histOf : String → Except String Momentum)
    (u : List (String × List String)) (w : List (String × ℚ))
    (s : ScreenConfig) (c : List (String × Nat))
    (picks : List Pick) (table t0 : List Scored) (raw : List Pick)
    (ht : buildTable infoOf histOf u s = Except.ok t0)
    (hraw : rawPicks t0 c w = Except.ok raw)
    (hpos : 0 < pickSum raw)
    (hb : build_portfolio infoOf histOf u w s c = Except.ok (picks, table)) :
    pickSum picks = 1 := by
  simp only [build_portfolio, ht, hraw] at hb
  by_cases hre : raw.isEmpty
  · rw [if_pos hre] at hb
    simp at hb
  · rw [if_neg hre] at hb
    simp only [Except.ok.injEq, Prod.mk.injEq] at hb
    obtain ⟨h1, _⟩ := hb
    rw [← h1, pickSum_sortPicksFinal, pickSum_normalize]
    exact div_self (ne_of_gt hpos)

set_option maxHeartbeats 1600000 in
/-- C4 witness: on the one-sleeve demo run the final weights sum to 1. -/
theorem C4_weights_sum_one_witness : pickSum picksC4 = 1 :=
  C4_weights_sum_one iaAll haNone uC4 wC4 SCREEN PICKS_PER_SLEEVE
    picksC4 tableC4 tC4 rawC4
    (by with_unfolding_all rfl) (by with_unfolding_all rfl)
    (by with_unfolding_all decide) (by with_unfolding_all rfl)

/-- A successful fetch returns a row carrying its ticker. -/
theorem fetch_metrics_ticker (infoOf : String → Except String RawInfo)
    (histOf : String → Except String Momentum) (tk : String) (r : Row)
    (h : fetch_metrics infoOf histOf tk = Except.ok r) : r.ticker = tk := by
  unfold fetch_metrics at h
  cases hinf : infoOf tk with
  | error e => rw [hinf] at h; simp at h
  | ok i =>
      rw [hinf] at h
      simp only [Except.ok.injEq] at h
      rw [← h]

/-- The rows of one sleeve carry exactly the sleeve's ticker-list entries. -/
theorem rowsForSleeve_pairs (infoOf : String → Except String RawInfo)
    (histOf : String → Except String Momentum) (sl : String) :
    ∀ (tks : List String) (rs : List Row),
      rowsForSleeve infoOf histOf sl tks = Except.ok rs →
      rs.map (fun r => (r.sleeve, r.ticker)) = tks.map (fun tk => (sl, tk)) := by
  intro tks
  induction tks with
  | nil =>
      intro rs h
      simp only [rowsForSleeve, Except.ok.injEq] at h
      rw [← h]
      rfl
  | cons tk tks ih =>
      intro rs h
      unfold rowsForSleeve at h
      cases hf : fetch_metrics infoOf histOf tk with
      | error e => rw [hf] at h; simp at h
      | ok r =>
          rw [hf] at h
          cases hrec : rowsForSleeve infoOf histOf sl tks with
          | error e => rw [hrec] at h; simp at h
          | ok rest =>
              rw [hrec] at h
              simp only [Except.ok.injEq] at h
              rw [← h]
              simp only [List.map_cons]
              rw [ih rest hrec, fetch_metrics_ticker infoOf histOf tk r hf]

/-- The accumulated rows carry exactly the universe's (sleeve, ticker)
entries, in order. -/
theorem buildRows_pairs (infoOf : String → Except String RawInfo)
    (histOf : String → Except String Momentum) :
    ∀ (u : List (String × List String)) (rows : List Row),
      buildRows infoOf histOf u = Except.ok rows →
      rows.map (fun r => (r.sleeve, r.ticker)) = universePairs u := by
  intro u
  induction u with
  | nil =>
      intro rows h
      simp only [buildRows, Except.ok.injEq] at h
      rw [← h]
      rfl
  | cons e rest ih =>
      obtain ⟨sl, tks⟩ := e
      intro rows h
      unfold buildRows at h
      cases hs : rowsForSleeve infoOf histOf sl tks with
      | error er => rw [hs] at h; simp at h
      | ok rs =>
          rw [hs] at h
          cases hr : buildRows infoOf histOf rest with
          | error er => rw [hr] at h; simp at h
          | ok rest' =>
              rw [hr] at h
              simp only [Except.ok.injEq] at h
              rw [← h]
              unfold universePairs
              rw [List.map_append, rowsForSleeve_pairs infoOf histOf sl tks rs hs,
                ih rest' hr]

/-- Adding the screen/score columns does not change a row's (sleeve, ticker). -/
theorem scoreTable_pairs (cfg : ScreenConfig) (rows : List Row) :
    (scoreTable cfg rows).map (fun r => (r.sleeve, r.ticker)) =
      rows.map (fun r => (r.sleeve, r.ticker)) := by
  unfold scoreTable
  rw [List.map_map]
  rfl

/-- C9 (amended): the universe table contains exactly one row per universe
ticker-list entry — its (sleeve, ticker) pairs are exactly the
configuration's entries, in order — so a (sleeve, ticker) pair is unique in
the table precisely when it is unique in the configuration; the final
presentation sort only permutes rows (all counts preserved).  The shipped
`UNIVERSE` contains duplicated entries, so for it some pairs occur twice. -/
theorem C9_table_rows (infoOf : String → Except String RawInfo)
    (histOf : String → Except String Momentum)
    (u : List (String × List String)) (s : ScreenConfig) (t0 : List Scored)
    (ht : buildTable infoOf histOf u s = Except.ok t0) :
    t0.map (fun r => (r.sleeve, r.ticker)) = universePairs u ∧
    ∀ p : Scored → Bool, (sortTableFinal t0).countP p = t0.countP p := by
  constructor
  · unfold buildTable at ht
    cases hr : buildRows infoOf histOf u with
    | error e => rw [hr] at ht; simp at ht
    | ok rows =>
        rw [hr] at ht
        simp only [Except.ok.injEq] at ht
        rw [← ht, scoreTable_pairs]
        exact buildRows_pairs infoOf histOf u rows hr
  · intro p
    exact ((sortBy_perm _ t0).countP_eq p)

set_option maxHeartbeats 8000000 in
/-- C9 witness: the amended theorem applied to the shipped "international"
sleeve run. -/
theorem C9_table_rows_witness :
    tC9.map (fun r => (r.sleeve, r.ticker)) = universePairs uC9 ∧
    (sortTableFinal tC9).countP
        (fun r => r.sleeve == "international" && r.ticker == "BABA") =
      tC9.countP (fun r => r.sleeve == "international" && r.ticker == "BABA") := by
  have h := C9_table_rows ioC9 haNone uC9 SCREEN tC9 (by with_unfolding_all rfl)
  exact ⟨h.1, h.2 _⟩

set_option maxHeartbeats 8000000 in
/-- C9 counterexample: on the shipped "international" sleeve (whose ticker
list contains "BABA" twice), the returned universe table holds two rows for
the pair (international, BABA), and with a provider that reports a dividend
yield for BABA both copies are selected — the pair also appears twice among
the picks. -/
theorem C9_duplicate_pair_counterexample :
    tableC9.countP (fun r => r.sleeve == "international" && r.ticker == "BABA") = 2 ∧
    picksC9.countP (fun p => p.ticker == "BABA") = 2 := by
  constructor
  · with_unfolding_all rfl
  · with_unfolding_all rfl

end Buffett
